import Mathlib

/-!
Verification of the battleship game core (grid / ship combat model, player,
targeting AI, game controller) against its specification.

The Lean definitions below are a shallow embedding of the Python sources:

* `src/models/ship.py`    → `Ship`
* `src/models/grid.py`    → `Grid`
* `src/models/player.py`  → `Player`, `prsStep` (the `place_ships_randomly` loop)
* `src/models/ai_player.py` → `AIPlayer`
* `src/game/game_controller.py` → `GameController`

Modelling conventions:

* A board position `(row, col)` is a pair of integers (Python tuples of ints,
  which may be negative or out of range).
* Python `set` objects that are only queried for membership / size are
  `Finset (Int × Int)`.
* The AI's `shots` attribute is created as a Python *list* by
  `Player.__init__` and is replaced by a *set* only on the save-game load
  paths; `PyShots` models this dynamic typing, and list-only operations
  (`append`) respectively set-only operations (`add`) fail with an
  `AttributeError` on the wrong variant, exactly as in CPython.
* Python floats in the AI heuristics are modelled as exact rationals; every
  claim below is independent of float rounding.
* `random.choice(xs)` is modelled by an explicit index `k`, picking
  `xs[k % len(xs)]`; theorems quantify over `k`.
-/

abbrev Pos : Type := Int × Int

/-! ## Ship (src/models/ship.py) -/

structure Ship where
  name : String
  size : Nat
  position : List Pos
  hits : List Pos
  orientation : String
deriving DecidableEq

/-- Default ship used to resolve an index into a ship list; under the grid
invariants every stored index is in range and this default is never read. -/
def dfltShip : Ship := ⟨"", 1, [], [], "horizontal"⟩

/-- `Ship.is_sunk`: all cells hit (`len(self.hits) == self.size`). -/
def Ship.isSunk (s : Ship) : Bool := s.hits.length == s.size

/-- `Ship.take_hit`: record a hit if the position belongs to the ship and was
not already hit; returns the updated ship and the Python return value. -/
def Ship.takeHit (s : Ship) (pos : Pos) : Ship × Bool :=
  if s.position = [] then (s, false)
  else if pos ∈ s.position ∧ pos ∉ s.hits then
    ({ s with hits := s.hits ++ [pos] }, true)
  else (s, false)

/-! ## Grid (src/models/grid.py) -/

structure Grid where
  size : Nat
  cells : Pos → Option Nat   -- `self.grid`; `some i` points to `ships[i]`
  ships : List Ship
  shots : Finset Pos
  hits : Finset Pos
  misses : Finset Pos

def Grid.empty (n : Nat) : Grid :=
  ⟨n, fun _ => none, [], ∅, ∅, ∅⟩

/-- `Grid._is_within_grid`. -/
def withinGrid (n : Nat) (p : Pos) : Bool :=
  decide (0 ≤ p.1) && decide (p.1 < (n : Int)) && decide (0 ≤ p.2) && decide (p.2 < (n : Int))

/-- `Grid._calculate_ship_positions`. -/
def calcShipPositions (gsize : Nat) (shipSize : Nat) (start : Pos)
    (orientation : String) : Option (List Pos) :=
  if withinGrid gsize start then
    let ps := (List.range shipSize).map fun i =>
      if orientation = "horizontal" then (start.1, start.2 + (i : Int))
      else (start.1 + (i : Int), start.2)
    if ps.all (fun p => withinGrid gsize p) then some ps else none
  else none

/-- The 3×3 block of offsets scanned by `Grid._is_valid_placement`
(`for i in range(-1, 2): for j in range(-1, 2)`). -/
def neighborOffsets : List (Int × Int) :=
  [(-1, -1), (-1, 0), (-1, 1), (0, -1), (0, 0), (0, 1), (1, -1), (1, 0), (1, 1)]

/-- `Grid._is_valid_placement`: no cell of the candidate run, nor any of its
8 neighbors, may already belong to a ship. -/
def isValidPlacement (g : Grid) (ps : List Pos) : Bool :=
  ps.all fun p => neighborOffsets.all fun d =>
    !(withinGrid g.size (p.1 + d.1, p.2 + d.2) &&
      (g.cells (p.1 + d.1, p.2 + d.2)).isSome)

/-- `Grid.place_ship`. -/
def Grid.placeShip (g : Grid) (ship : Ship) (start : Pos)
    (orientation : String) : Bool × Grid :=
  if ¬ (orientation = "horizontal" ∨ orientation = "vertical") then (false, g)
  else
    match calcShipPositions g.size ship.size start orientation with
    | none => (false, g)
    | some ps =>
      if isValidPlacement g ps then
        let ship' := { ship with position := ps, orientation := orientation }
        (true, { g with
          ships := g.ships ++ [ship'],
          cells := fun p => if p ∈ ps then some g.ships.length else g.cells p })
      else (false, g)

/-- `Grid.receive_shot`. -/
def Grid.receiveShot (g : Grid) (pos : Pos) : (Bool × Option Ship) × Grid :=
  if withinGrid g.size pos = false ∨ pos ∈ g.shots then ((false, none), g)
  else
    match g.cells pos with
    | none =>
      ((false, none),
        { g with shots := insert pos g.shots, misses := insert pos g.misses })
    | some i =>
      let ship' := ((g.ships.getD i dfltShip).takeHit pos).1
      ((true, if ship'.isSunk then some ship' else none),
        { g with shots := insert pos g.shots, hits := insert pos g.hits,
                 ships := g.ships.set i ship' })

/-- `Grid.get_cell_state`. -/
def Grid.getCellState (g : Grid) (pos : Pos) : String :=
  if withinGrid g.size pos = false then "invalid"
  else if pos ∈ g.hits then "hit"
  else if pos ∈ g.misses then "miss"
  else if (g.cells pos).isSome then "ship"
  else "empty"

/-- `Grid.all_ships_sunk`. -/
def Grid.allShipsSunk (g : Grid) : Bool := g.ships.all Ship.isSunk

/-- `Grid.clear`: reset everything, keeping the size. -/
def Grid.clear (g : Grid) : Grid :=
  { size := g.size, cells := fun _ => none, ships := [], shots := ∅,
    hits := ∅, misses := ∅ }

/-- `Grid.resize`: set a new size and reset all data. -/
def Grid.resize (_ : Grid) (n : Nat) : Grid := Grid.empty n

/-! ## Player (src/models/player.py) -/

/-- The `SHIPS` configuration from `src/utils/constants.py`. -/
def SHIPS : List (String × Nat) :=
  [("Aircraft Carrier", 5), ("Battleship", 4), ("Submarine", 3),
   ("Destroyer", 3), ("Patrol Boat", 2)]

structure Player where
  grid : Grid
  shots : List Pos                         -- `self.shots`, a Python list
  remainingShips : List (String × Nat)
  placedShips : List (String × Nat)        -- name ↦ index into `grid.ships`

def Player.fresh (gridSize : Nat) : Player :=
  ⟨Grid.empty gridSize, [], SHIPS, []⟩

/-- Python dict assignment `placed_ships[name] = v`: overwrite in place or
append. -/
def upsert (l : List (String × Nat)) (k : String) (v : Nat) : List (String × Nat) :=
  match l with
  | [] => [(k, v)]
  | (k', v') :: rest => if k' = k then (k, v) :: rest else (k', v') :: upsert rest k v

/-- `Player.place_ship`. -/
def Player.placeShip (p : Player) (name : String) (size : Nat) (start : Pos)
    (orientation : String) : Bool × Player :=
  if name ∈ p.remainingShips.map Prod.fst then
    let ship : Ship := ⟨name, size, [], [], "horizontal"⟩
    let r := p.grid.placeShip ship start orientation
    if r.1 then
      (true, { p with
        grid := r.2,
        placedShips := upsert p.placedShips name (r.2.ships.length - 1),
        remainingShips := p.remainingShips.erase (name, size) })
    else (false, p)
  else (false, p)

/-- `Player.receive_shot`: records the position in the shot history
unconditionally, then forwards to the grid. -/
def Player.receiveShot (p : Player) (pos : Pos) : (Bool × Option Ship) × Player :=
  let r := p.grid.receiveShot pos
  (r.1, { p with shots := p.shots ++ [pos], grid := r.2 })

/-- `Player.all_ships_sunk`: every placed ship is sunk. -/
def Player.allShipsSunk (p : Player) : Bool :=
  p.placedShips.all fun ni => (p.grid.ships.getD ni.2 dfltShip).isSunk

/-- `Player._get_valid_positions`: all start positions whose full
placement-and-adjacency check passes.  The scan bounds mirror Python
`range(max_row) × range(max_col)` where a negative bound yields an empty
range. -/
def Player.getValidPositions (p : Player) (shipSize : Nat)
    (orientation : String) : List Pos :=
  let n := p.grid.size
  let fit : Nat := ((n : Int) - (shipSize : Int) + 1).toNat
  let maxRow : Nat := if orientation = "horizontal" then n else fit
  let maxCol : Nat := if orientation = "horizontal" then fit else n
  ((List.range maxRow).flatMap fun r =>
    (List.range maxCol).map fun c => ((r : Int), (c : Int))).filter fun pos =>
      match calcShipPositions n shipSize pos orientation with
      | some ps => isValidPlacement p.grid ps
      | none => false

/-! ### The `place_ships_randomly` retry loop

The loop body carries the player, the failed-`attempts` counter, and a
position `idx` into the random stream.  The oracle `o` supplies, per
iteration, the orientation coin and the index used for `random.choice`
over the valid positions. -/

structure PRSState where
  player : Player
  attempts : Nat
  idx : Nat

/-- Loop exit of `place_ships_randomly`: success iff no ship remains,
otherwise restore the pre-attempt empty state and report failure. -/
def prsExit (orig : List (String × Nat)) (st : PRSState) : Bool × Player :=
  if st.player.remainingShips = [] then (true, st.player)
  else
    (false, { grid := Grid.empty st.player.grid.size, shots := st.player.shots,
              remainingShips := orig, placedShips := [] })

/-- One iteration of the `while` loop in `Player.place_ships_randomly`
(including the loop-condition test; `remaining_ships[0]` is `headD`). -/
def prsStep (orig : List (String × Nat)) (o : Nat → Bool × Nat)
    (st : PRSState) : PRSState ⊕ (Bool × Player) :=
  if st.player.remainingShips = [] ∨ 200 ≤ st.attempts then Sum.inr (prsExit orig st)
  else
    let name := (st.player.remainingShips.headD ("", 0)).1
    let size := (st.player.remainingShips.headD ("", 0)).2
    let orientation := if (o st.idx).1 then "horizontal" else "vertical"
    let valid := st.player.getValidPositions size orientation
    let placed :=
      if valid = [] then none
      else
        let pos := valid.getD ((o st.idx).2 % valid.length) (0, 0)
        let r := st.player.placeShip name size pos orientation
        if r.1 then some r.2 else none
    match placed with
    | some p' => Sum.inl { player := p', attempts := st.attempts, idx := st.idx + 1 }
    | none =>
      let a := st.attempts + 1
      if a % 50 = 0 then
        Sum.inl { player := { grid := st.player.grid.clear, shots := st.player.shots,
                              remainingShips := orig, placedShips := [] },
                  attempts := 0, idx := st.idx + 1 }
      else
        Sum.inl { player := st.player, attempts := a, idx := st.idx + 1 }

/-- Run the loop for at most `fuel` iterations; `Sum.inl` means the loop is
still running (the Python loop has no fuel bound). -/
def prsRun (orig : List (String × Nat)) (o : Nat → Bool × Nat) :
    Nat → PRSState → PRSState ⊕ (Bool × Player)
  | 0, st => Sum.inl st
  | fuel + 1, st =>
    match prsStep orig o st with
    | Sum.inl st' => prsRun orig o fuel st'
    | Sum.inr r => Sum.inr r

/-- `Player.place_ships_randomly`, run for `fuel` loop iterations. -/
def placeShipsRandomly (p : Player) (o : Nat → Bool × Nat) (fuel : Nat) :
    PRSState ⊕ (Bool × Player) :=
  prsRun p.remainingShips o fuel ⟨p, 0, 0⟩

/-! ## AIPlayer (src/models/ai_player.py)

`Player.__init__` creates `self.shots` as a Python `list`; the save-game
load paths (`from_dict`, `_clean_state`, `_validate_loaded_state`) replace
it by a `set`.  `AIPlayer.update_strategy` calls the set method
`self.shots.add(...)` while the inherited `Player.receive_shot` calls the
list method `self.shots.append(...)`; on the wrong variant CPython raises
`AttributeError`.  `PyShots` captures both variants. -/

inductive PyShots where
  | pylist : List Pos → PyShots
  | pyset : Finset Pos → PyShots

def PyShots.mem : PyShots → Pos → Prop
  | .pylist l, p => p ∈ l
  | .pyset s, p => p ∈ s

instance (s : PyShots) (p : Pos) : Decidable (s.mem p) :=
  match s with
  | .pylist l => inferInstanceAs (Decidable (p ∈ l))
  | .pyset t => inferInstanceAs (Decidable (p ∈ t))

/-- Python `len(self.shots)`, defined on both variants. -/
def PyShots.len : PyShots → Nat
  | .pylist l => l.length
  | .pyset s => s.card

/-- True iff the `shots` attribute still is the list created by
`Player.__init__`. -/
def PyShots.isPylist : PyShots → Bool
  | .pylist _ => true
  | .pyset _ => false

structure AIPlayer where
  grid : Grid
  shots : PyShots
  remainingShips : List (String × Nat)
  placedShips : List (String × Nat)
  lastHit : Option Pos
  potentialTargets : List Pos
  hitPositions : List Pos   -- Python set; modelled in insertion order
  huntingMode : Bool
  huntDirection : Option String
  firstHit : Option Pos

/-- `AIPlayer.__init__` (which calls `Player.__init__` with the default
grid size 10). -/
def AIPlayer.fresh : AIPlayer :=
  ⟨Grid.empty 10, .pylist [], SHIPS, [], none, [], [], false, none, none⟩

/-- `AIPlayer._is_adjacent_to_sunk_ship` for a specific ship: Chebyshev
distance at most 1 from one of its cells. -/
def adjacentToShip (pos : Pos) (s : Ship) : Bool :=
  s.position.any fun q =>
    decide ((pos.1 - q.1).natAbs ≤ 1) && decide ((pos.2 - q.2).natAbs ≤ 1)

/-- `AIPlayer._is_valid_target`: inside the grid, not yet shot, and not
adjacent to a sunk ship.  (The `opponent_grid` attribute tested with
`hasattr` is never assigned anywhere in the program, so that branch is
dead and omitted.) -/
def AIPlayer.isValidTarget (ai : AIPlayer) (pos : Pos) : Bool :=
  withinGrid ai.grid.size pos &&
  !(decide (ai.shots.mem pos)) &&
  !(ai.grid.ships.any fun s => s.isSunk && adjacentToShip pos s)

/-- Row-major list of all grid coordinates, as scanned by the Python
`for row ... for col ...` loops. -/
def gridCoords (n : Nat) : List Pos :=
  (List.range n).flatMap fun r => (List.range n).map fun c => ((r : Int), (c : Int))

/-- `min(row, col, size-1-row, size-1-col)` in `_get_ship_probability_map`. -/
def edgeDistance (n : Nat) (p : Pos) : Int :=
  min (min p.1 p.2) (min ((n : Int) - 1 - p.1) ((n : Int) - 1 - p.2))

/-- Membership in the 5×5 boost window around a hit, i.e. the Python ranges
`range(max(0,row-2), min(size,row+3))` in both coordinates. -/
def inBoostWindow (n : Nat) (h p : Pos) : Bool :=
  decide (max 0 (h.1 - 2) ≤ p.1) && decide (p.1 < min (n : Int) (h.1 + 3)) &&
  decide (max 0 (h.2 - 2) ≤ p.2) && decide (p.2 < min (n : Int) (h.2 + 3))

/-- `AIPlayer._get_ship_probability_map` as a function on coordinates
(floats modelled as exact rationals).  On every in-grid cell this agrees
with the Python array: start from 1.0, scale by the edge-distance factor,
zero out fired cells, then multiply the boost of each recorded hit. -/
def AIPlayer.probMap (ai : AIPlayer) (p : Pos) : ℚ :=
  if ai.shots.mem p then 0
  else
    let base : ℚ := ((edgeDistance ai.grid.size p : Int) + 1) / ((ai.grid.size : ℚ) / 2)
    ai.hitPositions.foldl
      (fun acc h =>
        if inBoostWindow ai.grid.size h p && ai.isValidTarget p then
          acc * (3 / (((p.1 - h.1).natAbs + (p.2 - h.2).natAbs + 1 : Nat) : ℚ))
        else acc)
      base

/-- The `best_positions` scan of `get_shot_position`: walk the grid in
row-major order, skip fired cells, and keep the cells of maximal
probability (`max_probability` starts at 0). -/
def AIPlayer.bestPositions (ai : AIPlayer) : List Pos :=
  ((gridCoords ai.grid.size).foldl
    (fun (acc : ℚ × List Pos) p =>
      if ai.shots.mem p then acc
      else
        let prob := ai.probMap p
        if acc.1 < prob then (prob, [p])
        else if prob = acc.1 then (acc.1, acc.2 ++ [p])
        else acc)
    (0, [])).2

/-- `AIPlayer._get_safe_random_shot`: a random not-yet-fired cell, `(0,0)`
if none remains. -/
def AIPlayer.safeRandomShot (ai : AIPlayer) (k : Nat) : Pos :=
  let available := (gridCoords ai.grid.size).filter fun p => !(decide (ai.shots.mem p))
  if available = [] then (0, 0)
  else available.getD (k % available.length) (0, 0)

/-- `AIPlayer.get_shot_position`: pop the queued target while hunting, else
pick among the highest-probability cells, else fall back to a safe random
shot.  The pop mutates `potential_targets`, so the updated player is
returned alongside the position. -/
def AIPlayer.getShotPosition (ai : AIPlayer) (k : Nat) : Pos × AIPlayer :=
  if ai.huntingMode ∧ ai.potentialTargets ≠ [] then
    (ai.potentialTargets.headD (0, 0),
     { ai with potentialTargets := ai.potentialTargets.tail })
  else
    let best := ai.bestPositions
    if best = [] then (ai.safeRandomShot k, ai)
    else (best.getD (k % best.length) (0, 0), ai)

/-- `AIPlayer._reset_hunting`. -/
def AIPlayer.resetHunting (ai : AIPlayer) : AIPlayer :=
  { ai with huntingMode := false, firstHit := none, huntDirection := none,
            potentialTargets := [] }

/-- `AIPlayer._update_hunt_pattern_for_miss`: drop queued targets lying in
the quadrant of the miss relative to the first hit; reset hunting if the
queue empties. -/
def AIPlayer.updateHuntPatternForMiss (ai : AIPlayer) (miss : Pos) : AIPlayer :=
  match ai.firstHit with
  | none => ai
  | some fh =>
    let rd := miss.1 - fh.1
    let cd := miss.2 - fh.2
    let pts := ai.potentialTargets.filter fun p =>
      decide ((p.1 - fh.1) * rd ≤ 0 ∧ (p.2 - fh.2) * cd ≤ 0)
    if pts = [] then ({ ai with potentialTargets := pts }).resetHunting
    else { ai with potentialTargets := pts }

/-- Stable insert used to model Python `list.sort(key=..., reverse=True)`. -/
def insertDescBy (key : Pos → ℚ) (x : Pos) : List Pos → List Pos
  | [] => [x]
  | y :: ys => if key y < key x then x :: y :: ys else y :: insertDescBy key x ys

/-- Stable descending sort by a rational key (Python `sort` with
`reverse=True`). -/
def sortDescBy (key : Pos → ℚ) (l : List Pos) : List Pos :=
  l.foldl (fun acc x => insertDescBy key x acc) []

/-- `AIPlayer._switch_to_focused_search`. -/
def AIPlayer.switchToFocusedSearch (ai : AIPlayer) : AIPlayer :=
  let ai0 := { ai with potentialTargets := ([] : List Pos) }
  let cand := (gridCoords ai0.grid.size).filter fun p =>
    decide ((3 : ℚ) / 2 < ai0.probMap p) && !(decide (ai0.shots.mem p))
  { ai0 with potentialTargets := sortDescBy ai0.probMap cand }

/-- `AIPlayer._concentrate_on_current_area`: widen the queue around the
most recent hit. -/
def AIPlayer.concentrateOnCurrentArea (ai : AIPlayer) : AIPlayer :=
  match ai.hitPositions.getLast? with
  | none => ai
  | some c =>
    let window := (gridCoords ai.grid.size).filter fun p => inBoostWindow ai.grid.size c p
    window.foldl
      (fun a p =>
        if ¬ a.shots.mem p ∧ p ∉ a.potentialTargets ∧ a.isValidTarget p then
          { a with potentialTargets := a.potentialTargets ++ [p] }
        else a)
      ai

/-- `AIPlayer._update_general_hunt_pattern`. -/
def AIPlayer.updateGeneralHuntPattern (ai : AIPlayer) : AIPlayer :=
  if 10 < ai.shots.len then
    let ratio : ℚ := (ai.hitPositions.length : ℚ) / (ai.shots.len : ℚ)
    if ratio < 1 / 5 then ai.switchToFocusedSearch
    else if 2 / 5 < ratio then ai.concentrateOnCurrentArea
    else ai
  else ai

/-- The four direct neighbors scanned by `update_strategy`, in source
order. -/
def neighborOffsets4 : List (Int × Int) := [(0, 1), (1, 0), (0, -1), (-1, 0)]

/-- `AIPlayer.update_strategy`.  Its first statement is `self.shots.add(...)`
which raises `AttributeError` while `shots` still is the list built by
`Player.__init__`; the set branch performs the documented bookkeeping. -/
def AIPlayer.updateStrategy (ai : AIPlayer) (hit : Bool) (pos : Pos) :
    Except String AIPlayer :=
  match ai.shots with
  | .pylist _ => .error "AttributeError: list object has no attribute add"
  | .pyset s =>
    let ai1 := { ai with shots := PyShots.pyset (insert pos s) }
    if hit then
      let ai2 := { ai1 with hitPositions :=
        if pos ∈ ai1.hitPositions then ai1.hitPositions else ai1.hitPositions ++ [pos] }
      let ai3 :=
        if ¬ ai2.huntingMode then
          { ai2 with huntingMode := true, firstHit := some pos }
        else ai2
      .ok (neighborOffsets4.foldl
        (fun a d =>
          let np : Pos := (pos.1 + d.1, pos.2 + d.2)
          if a.isValidTarget np ∧ ¬ a.shots.mem np then
            { a with potentialTargets := a.potentialTargets ++ [np] }
          else a)
        ai3)
    else
      if ai1.huntingMode then .ok (ai1.updateHuntPatternForMiss pos)
      else .ok ai1.updateGeneralHuntPattern

/-- The inherited `Player.receive_shot` executed on an `AIPlayer` receiver:
`self.shots.append(...)` raises `AttributeError` when `shots` has been
converted to a set by a load path. -/
def AIPlayer.receiveShot (ai : AIPlayer) (pos : Pos) :
    Except String ((Bool × Option Ship) × AIPlayer) :=
  match ai.shots with
  | .pyset _ => .error "AttributeError: set object has no attribute append"
  | .pylist l =>
    let r := ai.grid.receiveShot pos
    .ok (r.1, { ai with shots := PyShots.pylist (l ++ [pos]), grid := r.2 })

/-- `Player.all_ships_sunk` on the AI receiver. -/
def AIPlayer.allShipsSunk (ai : AIPlayer) : Bool :=
  ai.placedShips.all fun ni => (ai.grid.ships.getD ni.2 dfltShip).isSunk

/-! ## GameController (src/game/game_controller.py) -/

structure Stats where
  totalShots : Nat
  hitCount : Nat
  missCount : Nat
  gamesPlayed : Nat
  gamesWon : Nat
deriving DecidableEq

/-- The result dictionaries returned by `process_player_shot` /
`process_ai_turn`, with the keys each branch may set. -/
structure ShotResult where
  valid : Bool
  hit : Bool := false
  sunk : Bool := false
  shipName : Option String := none
  gameOver : Bool := false
  winner : Option String := none
  message : String := ""
  position : Option Pos := none

structure GameController where
  player : Player
  aiPlayer : AIPlayer
  currentTurn : Option String
  gameState : String
  stats : Stats
  gridSize : Nat

/-- The per-shot statistics update shared by both shot handlers. -/
def Stats.recordShot (st : Stats) (hit : Bool) : Stats :=
  { st with totalShots := st.totalShots + 1,
            hitCount := if hit then st.hitCount + 1 else st.hitCount,
            missCount := if hit then st.missCount else st.missCount + 1 }

/-- `GameController.end_game` (the persistence call `_save_game_result` is
an external collaborator and outside the core). -/
def GameController.endGame (gc : GameController) (winner : String) : GameController :=
  { gc with
    gameState := "ended", currentTurn := none,
    stats := { gc.stats with
      gamesPlayed := gc.stats.gamesPlayed + 1,
      gamesWon := if winner = "player" then gc.stats.gamesWon + 1 else gc.stats.gamesWon } }

/-- `GameController.process_player_shot`.  The `Except` layer propagates a
Python exception out of the handler (it has no try/except); this happens
exactly when `ai_player.shots` has been turned into a set by a load path. -/
def GameController.processPlayerShot (gc : GameController) (pos : Pos) :
    Except String (ShotResult × GameController) :=
  if gc.gameState ≠ "playing" ∨ gc.currentTurn ≠ some "player" then
    .ok ({ valid := false, message := "Not your turn" }, gc)
  else if gc.aiPlayer.grid.getCellState pos = "hit" ∨
          gc.aiPlayer.grid.getCellState pos = "miss" then
    .ok ({ valid := false, message := "Position already targeted" }, gc)
  else
    match gc.aiPlayer.receiveShot pos with
    | .error e => .error e
    | .ok ((hit, sunkShip), ai') =>
      let gc1 := { gc with aiPlayer := ai', stats := gc.stats.recordShot hit }
      let result : ShotResult :=
        { valid := true, hit := hit, sunk := sunkShip.isSome,
          shipName := sunkShip.map Ship.name,
          message := if hit then "Hit!" else "Miss!" }
      if ai'.allShipsSunk then
        .ok ({ result with gameOver := true, winner := some "player" },
             gc1.endGame "player")
      else
        .ok (result, { gc1 with currentTurn := some "ai" })

/-- `GameController.process_ai_turn`.  The whole body sits in a try/except:
an exception raised after the shot has been applied to the human grid is
caught and reported as an invalid turn, with every mutation made so far
kept. -/
def GameController.processAITurn (gc : GameController) (k : Nat) :
    ShotResult × GameController :=
  if gc.gameState ≠ "playing" ∨ gc.currentTurn ≠ some "ai" then
    ({ valid := false, message := "Not AI turn" }, gc)
  else
    let pa := gc.aiPlayer.getShotPosition k
    let pos := pa.1
    let gc1 := { gc with aiPlayer := pa.2 }
    if gc1.aiPlayer.shots.mem pos then
      ({ valid := false, message := "Position already shot", position := some pos }, gc1)
    else
      let rp := gc1.player.receiveShot pos
      let hit := rp.1.1
      let sunkShip := rp.1.2
      let gc2 := { gc1 with player := rp.2 }
      match gc2.aiPlayer.updateStrategy hit pos with
      | .error _ =>
        ({ valid := false, message := "Error during AI turn", position := some (0, 0) }, gc2)
      | .ok ai2 =>
        let ai3 :=
          match sunkShip with
          | some sh =>
            ({ ai2 with potentialTargets :=
                ai2.potentialTargets.filter fun p => decide (p ∉ sh.position) }).resetHunting
          | none => ai2
        let gc3 := { gc2 with aiPlayer := ai3, stats := gc2.stats.recordShot hit }
        let result : ShotResult :=
          { valid := true, hit := hit, sunk := sunkShip.isSome, position := some pos,
            shipName := sunkShip.map Ship.name,
            message := if hit then "AI Hit!" else "AI Missed!" }
        if gc3.player.allShipsSunk then
          ({ result with gameOver := true, winner := some "ai" }, gc3.endGame "ai")
        else
          (result, { gc3 with currentTurn := some "player" })

/-! ## Scaffolding for the claims -/

/-- Two cells at Chebyshev distance ≤ 1: equal or 8-adjacent. -/
def chebAdjacent (p q : Pos) : Prop :=
  (p.1 - q.1).natAbs ≤ 1 ∧ (p.2 - q.2).natAbs ≤ 1

instance (p q : Pos) : Decidable (chebAdjacent p q) :=
  inferInstanceAs (Decidable (_ ∧ _))

/-- No cell of one placed ship equals, or is 8-adjacent to, a cell of a
different placed ship (this subsumes pairwise disjointness, since equal
cells are at Chebyshev distance 0). -/
def shipsSeparated (g : Grid) : Prop :=
  ∀ i j, i < g.ships.length → j < g.ships.length → i ≠ j →
    ∀ p ∈ (g.ships.getD i dfltShip).position,
      ∀ q ∈ (g.ships.getD j dfltShip).position, ¬ chebAdjacent p q

/-- The cell matrix and the ship list describe each other, and every ship
cell lies inside the grid. -/
def cellsConsistent (g : Grid) : Prop :=
  (∀ p i, g.cells p = some i →
     i < g.ships.length ∧ p ∈ (g.ships.getD i dfltShip).position) ∧
  (∀ i, i < g.ships.length →
     ∀ p ∈ (g.ships.getD i dfltShip).position,
       g.cells p = some i ∧ withinGrid g.size p = true)

def placementInv (g : Grid) : Prop := cellsConsistent g ∧ shipsSeparated g

/-- A `Grid.place_ship` call, with the fresh ship it is given. -/
structure PlaceCmd where
  name : String
  size : Nat
  start : Pos
  orientation : String

/-- Run a sequence of `place_ship` calls from an empty grid. -/
def applyPlacements (n : Nat) (cmds : List PlaceCmd) : Grid :=
  cmds.foldl
    (fun g c => (g.placeShip ⟨c.name, c.size, [], [], "horizontal"⟩ c.start c.orientation).2)
    (Grid.empty n)

/-- The grid operations of claim C5. -/
inductive GridOp where
  | place (name : String) (size : Nat) (start : Pos) (orientation : String)
  | shoot (pos : Pos)
  | resize (n : Nat)
  | clear

def GridOp.apply (g : Grid) : GridOp → Grid
  | .place name size start orientation =>
      (g.placeShip ⟨name, size, [], [], "horizontal"⟩ start orientation).2
  | .shoot pos => (g.receiveShot pos).2
  | .resize n => g.resize n
  | .clear => g.clear

/-- The shot-bookkeeping invariant of claim C5. -/
def shotInv (g : Grid) : Prop :=
  g.hits ∩ g.misses = ∅ ∧ g.hits ∪ g.misses = g.shots ∧
  ∀ p ∈ g.hits, (g.cells p).isSome = true

/-! Concrete states used as failing inputs and witnesses. -/

/-- A player with an impossible placement task: a length-5 ship on a 4×4
grid (the claim C6 quantifies over every grid size and ship set). -/
def stuckPlayer : Player := ⟨Grid.empty 4, [], [("Aircraft Carrier", 5)], []⟩

/-- The human side's last ship, one hit away from sinking. -/
def lastShip : Ship := ⟨"Patrol Boat", 2, [(0, 0), (0, 1)], [(0, 0)], "horizontal"⟩

def lastShipGrid : Grid :=
  ⟨2, fun p => if p = ((0 : Int), (0 : Int)) ∨ p = ((0 : Int), (1 : Int)) then some 0 else none,
   [lastShip], {((0 : Int), (0 : Int))}, {((0 : Int), (0 : Int))}, ∅⟩

def lastShipPlayer : Player := ⟨lastShipGrid, [(0, 0)], [], [("Patrol Boat", 0)]⟩

/-- The AI about to fire the sinking shot: its strategy state is fresh (so
its `shots` attribute is still the list built by `Player.__init__`), and
the only cell its probability scan can pick is `(0, 1)`. -/
def aiAboutToSink : AIPlayer :=
  ⟨Grid.empty 2, .pylist [(0, 0)], [], [], none, [], [], false, none, none⟩

/-- Failing input for claim C7: the AI's next shot sinks the human side's
last ship. -/
def gcSinkingShot : GameController :=
  ⟨lastShipPlayer, aiAboutToSink, some "ai", "playing", ⟨0, 0, 0, 0, 0⟩, 2⟩

/-- An AI whose queued target was already fired upon (counterexample state
for claim C8). -/
def aiStaleTarget : AIPlayer :=
  ⟨Grid.empty 3, .pylist [(0, 0)], [], [], none, [(0, 0)], [], true, none, none⟩

def gcStaleTarget : GameController :=
  ⟨Player.fresh 3, aiStaleTarget, some "ai", "playing", ⟨0, 0, 0, 0, 0⟩, 3⟩

/-- A minimal playing-state controller on the AI's turn (witness input for
claim C1). -/
def gcAITurn : GameController :=
  ⟨Player.fresh 1, ⟨Grid.empty 1, .pylist [], SHIPS, [], none, [], [], false, none, none⟩,
   some "ai", "playing", ⟨0, 0, 0, 0, 0⟩, 1⟩

/-- A playing-state controller on the human's turn whose AI opponent still
has an unsunk placed ship (witness input for claim C9). -/
def gcPlayerTurn : GameController :=
  ⟨Player.fresh 2,
   ⟨⟨2, fun p => if p = ((0 : Int), (0 : Int)) ∨ p = ((0 : Int), (1 : Int)) then some 0 else none,
     [⟨"Patrol Boat", 2, [(0, 0), (0, 1)], [], "horizontal"⟩], ∅, ∅, ∅⟩,
    .pylist [], [], [("Patrol Boat", 0)], none, [], [], false, none, none⟩,
   some "player", "playing", ⟨0, 0, 0, 0, 0⟩, 2⟩

/-- A fixed random stream used by witnesses. -/
def oracleZero : Nat → Bool × Nat := fun _ => (true, 0)

/-- The loop invariant of the stuck `place_ships_randomly` configuration:
the impossible ship is still pending and the grid still has size 4. -/
def stuckInv (st : PRSState) : Prop :=
  st.player.remainingShips = [("Aircraft Carrier", 5)] ∧ st.player.grid.size = 4

/-- A controller still in setup (witness input for the rejection claim). -/
def gcSetup : GameController :=
  ⟨Player.fresh 2, ⟨Grid.empty 2, .pylist [], SHIPS, [], none, [], [], false, none, none⟩,
   some "player", "setup", ⟨0, 0, 0, 0, 0⟩, 2⟩

/-- A playing state on the human's turn where `(0, 0)` on the opponent grid
was already fired upon (witness input for the rejection claim). -/
def gcAlreadyTargeted : GameController :=
  ⟨Player.fresh 2,
   ⟨lastShipGrid, .pylist [], [], [("Patrol Boat", 0)], none, [], [], false, none, none⟩,
   some "player", "playing", ⟨0, 0, 0, 0, 0⟩, 2⟩

/-! ## Helper lemmas -/

theorem receiveShot_invalid (g : Grid) (pos : Pos)
    (h : withinGrid g.size pos = false ∨ pos ∈ g.shots) :
    g.receiveShot pos = ((false, none), g) := by
  unfold Grid.receiveShot
  rw [if_pos h]

theorem receiveShot_shots_after (g : Grid) (pos : Pos)
    (hw : withinGrid g.size pos = true) (hs : pos ∉ g.shots) :
    (g.receiveShot pos).2.shots = insert pos g.shots ∧
      (g.receiveShot pos).2.size = g.size := by
  unfold Grid.receiveShot
  rw [if_neg (by simp [hw, hs])]
  rcases g.cells pos with _ | i <;> exact ⟨rfl, rfl⟩

theorem updateStrategy_pylist_error (ai : AIPlayer) (hit : Bool) (pos : Pos)
    (l : List Pos) (hl : ai.shots = .pylist l) :
    ai.updateStrategy hit pos =
      Except.error "AttributeError: list object has no attribute add" := by
  unfold AIPlayer.updateStrategy
  rw [hl]

theorem isPylist_elim (s : PyShots) (h : s.isPylist = true) :
    ∃ l, s = PyShots.pylist l := by
  rcases s with l | t
  · exact ⟨l, rfl⟩
  · simp [PyShots.isPylist] at h

theorem getShotPosition_shots (ai : AIPlayer) (k : Nat) :
    ((ai.getShotPosition k).2).shots = ai.shots := by
  unfold AIPlayer.getShotPosition
  split
  · rfl
  · dsimp only
    split <;> rfl

/-! ## Claim C3 -/

/-- C3: `Grid.receive_shot(pos)` returns `(false, none)` and changes nothing
when `pos` is out of bounds or already fired; otherwise it records the shot
and either forwards a hit to `Ship.take_hit` and reports the ship exactly
when it is now sunk, or records a miss.  Firing twice at the same cell is a
no-op the second time. -/
theorem receiveShot_spec :
    (∀ (g : Grid) (pos : Pos), withinGrid g.size pos = false ∨ pos ∈ g.shots →
       g.receiveShot pos = ((false, none), g)) ∧
    (∀ (g : Grid) (pos : Pos), withinGrid g.size pos = true → pos ∉ g.shots →
       g.cells pos = none →
       g.receiveShot pos =
         ((false, none),
          { g with shots := insert pos g.shots, misses := insert pos g.misses })) ∧
    (∀ (g : Grid) (pos : Pos) (i : Nat), withinGrid g.size pos = true → pos ∉ g.shots →
       g.cells pos = some i →
       g.receiveShot pos =
         ((true,
           if ((g.ships.getD i dfltShip).takeHit pos).1.isSunk
           then some ((g.ships.getD i dfltShip).takeHit pos).1 else none),
          { g with shots := insert pos g.shots, hits := insert pos g.hits,
                   ships := g.ships.set i ((g.ships.getD i dfltShip).takeHit pos).1 })) ∧
    (∀ (g : Grid) (pos : Pos),
       (g.receiveShot pos).2.receiveShot pos = ((false, none), (g.receiveShot pos).2)) := by
  refine ⟨receiveShot_invalid, ?_, ?_, ?_⟩
  · intro g pos hw hs hc
    unfold Grid.receiveShot
    rw [if_neg (by simp [hw, hs]), hc]
  · intro g pos i hw hs hc
    unfold Grid.receiveShot
    rw [if_neg (by simp [hw, hs]), hc]
  · intro g pos
    by_cases hcond : withinGrid g.size pos = false ∨ pos ∈ g.shots
    · rw [receiveShot_invalid g pos hcond]
      exact receiveShot_invalid g pos hcond
    · have hw : withinGrid g.size pos = true := by
        rcases Bool.eq_false_or_eq_true (withinGrid g.size pos) with h | h
        · exact h
        · exact absurd (Or.inl h) hcond
      have hs : pos ∉ g.shots := fun hmem => hcond (Or.inr hmem)
      obtain ⟨hshots, hsize⟩ := receiveShot_shots_after g pos hw hs
      exact receiveShot_invalid _ pos (Or.inr (hshots ▸ Finset.mem_insert_self pos g.shots))

/-- Witness for C3: each branch of `receiveShot_spec` applied at a concrete
input. -/
theorem receiveShot_spec_witness :
    ((withinGrid lastShipGrid.size (5, 5) = false ∨ ((5 : Int), (5 : Int)) ∈ lastShipGrid.shots) ∧
       lastShipGrid.receiveShot (5, 5) = ((false, none), lastShipGrid)) ∧
    (withinGrid lastShipGrid.size (1, 1) = true ∧ ((1 : Int), (1 : Int)) ∉ lastShipGrid.shots ∧
       lastShipGrid.cells (1, 1) = none ∧
       lastShipGrid.receiveShot (1, 1) =
         ((false, none),
          { lastShipGrid with
              shots := insert (1, 1) lastShipGrid.shots,
              misses := insert (1, 1) lastShipGrid.misses })) ∧
    (withinGrid lastShipGrid.size (0, 1) = true ∧ ((0 : Int), (1 : Int)) ∉ lastShipGrid.shots ∧
       lastShipGrid.cells (0, 1) = some 0 ∧
       lastShipGrid.receiveShot (0, 1) =
         ((true,
           if ((lastShipGrid.ships.getD 0 dfltShip).takeHit (0, 1)).1.isSunk
           then some ((lastShipGrid.ships.getD 0 dfltShip).takeHit (0, 1)).1 else none),
          { lastShipGrid with
              shots := insert (0, 1) lastShipGrid.shots,
              hits := insert (0, 1) lastShipGrid.hits,
              ships := lastShipGrid.ships.set 0
                ((lastShipGrid.ships.getD 0 dfltShip).takeHit (0, 1)).1 })) := by
  refine ⟨⟨Or.inl (by decide), receiveShot_spec.1 lastShipGrid (5, 5) (Or.inl (by decide))⟩,
    ⟨by decide, by decide, by decide,
      receiveShot_spec.2.1 lastShipGrid (1, 1) (by decide) (by decide) (by decide)⟩,
    ⟨by decide, by decide, by decide,
      receiveShot_spec.2.2.1 lastShipGrid (0, 1) 0 (by decide) (by decide) (by decide)⟩⟩

/-! ## Claim C10 -/

/-- C10: `Player.receive_shot` appends the position to the shot-history list
unconditionally — also when the grid rejects the shot — so the history may
hold duplicates and out-of-bounds positions and can outgrow the grid's shot
set, as the two concrete runs show. -/
theorem player_receiveShot_unconditional_append :
    (∀ (p : Player) (pos : Pos), ((p.receiveShot pos).2).shots = p.shots ++ [pos]) ∧
    (((((Player.fresh 1).receiveShot (0, 0)).2.receiveShot (0, 0)).2).shots.length = 2 ∧
       ((((Player.fresh 1).receiveShot (0, 0)).2.receiveShot (0, 0)).2).grid.shots.card = 1) ∧
    ((((Player.fresh 1).receiveShot (5, 5)).2).shots = [(5, 5)] ∧
       (((Player.fresh 1).receiveShot (5, 5)).2).grid.shots = ∅) :=
  ⟨fun _ _ => rfl, ⟨by decide, by decide⟩, ⟨by decide, by decide⟩⟩

/-! ## Claim C2 -/

/-- C2 (code bug): on every AI whose `shots` attribute still is the list
created by `Player.__init__` — in particular on a fresh `AIPlayer` and on
every state a fresh game can reach — `update_strategy` raises
`AttributeError` at its very first statement `self.shots.add(position)`
and records nothing at all, for every reported outcome. -/
theorem updateStrategy_always_raises (ai : AIPlayer) (hit : Bool) (pos : Pos)
    (h : ai.shots.isPylist = true) :
    ai.updateStrategy hit pos =
      Except.error "AttributeError: list object has no attribute add" := by
  obtain ⟨l, hl⟩ := isPylist_elim ai.shots h
  exact updateStrategy_pylist_error ai hit pos l hl

/-- Witness for C2: the failing call on a fresh `AIPlayer`. -/
theorem updateStrategy_always_raises_witness :
    AIPlayer.fresh.shots.isPylist = true ∧
    AIPlayer.fresh.updateStrategy true (3, 3) =
      Except.error "AttributeError: list object has no attribute add" :=
  ⟨by decide, updateStrategy_always_raises AIPlayer.fresh true (3, 3) (by decide)⟩

/-! ## Claim C1 -/

/-- C1 (code bug): in every playing state on the AI's turn whose `shots`
attribute still is the list created by `Player.__init__` (which is every
state reachable in a fresh game, where no load path ever converts it to a
set), `process_ai_turn` returns an invalid result and leaves the turn with
the AI and the game in state `playing`: `update_strategy` raises
`AttributeError`, the try/except of `process_ai_turn` reports the turn as
invalid, and the AI stalls forever instead of never stalling. -/
theorem processAITurn_always_stalls (gc : GameController) (k : Nat)
    (hstate : gc.gameState = "playing") (hturn : gc.currentTurn = some "ai")
    (hshots : gc.aiPlayer.shots.isPylist = true) :
    (gc.processAITurn k).1.valid = false ∧
    (gc.processAITurn k).2.currentTurn = some "ai" ∧
    (gc.processAITurn k).2.gameState = "playing" := by
  have hcond : ¬ (gc.gameState ≠ "playing" ∨ gc.currentTurn ≠ some "ai") := by
    simp [hstate, hturn]
  obtain ⟨l, hl⟩ := isPylist_elim gc.aiPlayer.shots hshots
  have hl2 : ((gc.aiPlayer.getShotPosition k).2).shots = PyShots.pylist l :=
    (getShotPosition_shots gc.aiPlayer k).trans hl
  unfold GameController.processAITurn
  rw [if_neg hcond]
  dsimp only
  split
  · exact ⟨rfl, hturn, hstate⟩
  · rw [updateStrategy_pylist_error _ _ _ l hl2]
    exact ⟨rfl, hturn, hstate⟩

/-! ## Claim C7 -/

unseal Rat.mul Rat.inv Rat.add in
/-- C7 (code bug): a concrete playing state in which the AI's processed
shot sinks the human side's last ship (`all_ships_sunk` becomes true), yet
the game does not enter state `ended`, no winner is reported,
`games_played` is not incremented, and the turn does not pass:
`update_strategy` raises before the victory check is reached, and the
try/except of `process_ai_turn` reports the turn as invalid. -/
theorem sinking_ai_shot_does_not_end_game :
    lastShipPlayer.allShipsSunk = false ∧
    (gcSinkingShot.processAITurn 0).2.player.allShipsSunk = true ∧
    (gcSinkingShot.processAITurn 0).1.valid = false ∧
    (gcSinkingShot.processAITurn 0).1.gameOver = false ∧
    (gcSinkingShot.processAITurn 0).1.winner = none ∧
    (gcSinkingShot.processAITurn 0).2.gameState = "playing" ∧
    (gcSinkingShot.processAITurn 0).2.currentTurn = some "ai" ∧
    (gcSinkingShot.processAITurn 0).2.stats.gamesPlayed = gcSinkingShot.stats.gamesPlayed := by
  decide

/-! ## Claim C9 -/

theorem getCellState_oob (g : Grid) (pos : Pos)
    (h : withinGrid g.size pos = false) : g.getCellState pos = "invalid" := by
  unfold Grid.getCellState
  rw [if_pos h]

theorem aiReceiveShot_pylist (ai : AIPlayer) (pos : Pos) (l : List Pos)
    (hl : ai.shots = .pylist l) :
    ai.receiveShot pos =
      .ok ((ai.grid.receiveShot pos).1,
           { ai with shots := PyShots.pylist (l ++ [pos]),
                     grid := (ai.grid.receiveShot pos).2 }) := by
  unfold AIPlayer.receiveShot
  rw [hl]

/-- C9: an out-of-bounds position fired by the human during play is not
rejected: the result is valid with `hit = false`, `total_shots` and
`misses` are each incremented, and the turn passes to the AI, while the
underlying grid records no shot at all (the prior `get_cell_state` check
answers `invalid`, not `hit`/`miss`, and `Grid.receive_shot` ignores the
position). -/
theorem oob_player_shot_accepted (gc : GameController) (pos : Pos)
    (hstate : gc.gameState = "playing") (hturn : gc.currentTurn = some "player")
    (hoob : withinGrid gc.aiPlayer.grid.size pos = false)
    (hshots : gc.aiPlayer.shots.isPylist = true)
    (hsunk : gc.aiPlayer.allShipsSunk = false) :
    ∃ r gc', gc.processPlayerShot pos = .ok (r, gc') ∧
      r.valid = true ∧ r.hit = false ∧
      gc'.stats.totalShots = gc.stats.totalShots + 1 ∧
      gc'.stats.missCount = gc.stats.missCount + 1 ∧
      gc'.currentTurn = some "ai" ∧
      gc'.aiPlayer.grid = gc.aiPlayer.grid := by
  have hcond1 : ¬ (gc.gameState ≠ "playing" ∨ gc.currentTurn ≠ some "player") := by
    simp [hstate, hturn]
  have hcell : gc.aiPlayer.grid.getCellState pos = "invalid" :=
    getCellState_oob _ _ hoob
  have hcond2 : ¬ (gc.aiPlayer.grid.getCellState pos = "hit" ∨
      gc.aiPlayer.grid.getCellState pos = "miss") := by
    rw [hcell]; simp
  obtain ⟨l, hl⟩ := isPylist_elim _ hshots
  have hginv : gc.aiPlayer.grid.receiveShot pos = ((false, none), gc.aiPlayer.grid) :=
    receiveShot_invalid _ _ (Or.inl hoob)
  unfold GameController.processPlayerShot
  rw [if_neg hcond1, if_neg hcond2, aiReceiveShot_pylist gc.aiPlayer pos l hl, hginv]
  dsimp only
  rw [if_neg (by simp [show AIPlayer.allShipsSunk
    { gc.aiPlayer with shots := PyShots.pylist (l ++ [pos]), grid := gc.aiPlayer.grid } =
      gc.aiPlayer.allShipsSunk from rfl, hsunk])]
  exact ⟨_, _, rfl, rfl, rfl, rfl, rfl, rfl, rfl⟩

/-- Witness for C9: an out-of-bounds shot at `(5, 5)` on a 2×2 opponent
grid holding one unsunk ship. -/
theorem oob_player_shot_accepted_witness :
    (gcPlayerTurn.gameState = "playing" ∧ gcPlayerTurn.currentTurn = some "player" ∧
       withinGrid gcPlayerTurn.aiPlayer.grid.size (5, 5) = false ∧
       gcPlayerTurn.aiPlayer.shots.isPylist = true ∧
       gcPlayerTurn.aiPlayer.allShipsSunk = false) ∧
    (∃ r gc', gcPlayerTurn.processPlayerShot (5, 5) = .ok (r, gc') ∧
       r.valid = true ∧ r.hit = false ∧
       gc'.stats.totalShots = gcPlayerTurn.stats.totalShots + 1 ∧
       gc'.stats.missCount = gcPlayerTurn.stats.missCount + 1 ∧
       gc'.currentTurn = some "ai" ∧
       gc'.aiPlayer.grid = gcPlayerTurn.aiPlayer.grid) :=
  ⟨⟨rfl, rfl, by decide, by decide, by decide⟩,
   oob_player_shot_accepted gcPlayerTurn (5, 5) rfl rfl (by decide) (by decide) (by decide)⟩

/-! ## Claim C5 -/

theorem shotInv_empty (n : Nat) : shotInv (Grid.empty n) := by
  simp [shotInv, Grid.empty]

theorem shotInv_place (g : Grid) (ship : Ship) (start : Pos) (orientation : String)
    (h : shotInv g) : shotInv (g.placeShip ship start orientation).2 := by
  unfold Grid.placeShip
  split
  · exact h
  · split
    · exact h
    · split
      · refine ⟨h.1, h.2.1, fun p hp => ?_⟩
        dsimp only
        split
        · rfl
        · exact h.2.2 p hp
      · exact h

theorem shotInv_shoot (g : Grid) (pos : Pos) (h : shotInv g) :
    shotInv (g.receiveShot pos).2 := by
  by_cases hcond : withinGrid g.size pos = false ∨ pos ∈ g.shots
  · rw [receiveShot_invalid g pos hcond]; exact h
  · have hs : pos ∉ g.shots := fun hmem => hcond (Or.inr hmem)
    have hhit : pos ∉ g.hits := fun hmem =>
      hs (h.2.1 ▸ Finset.mem_union_left g.misses hmem)
    have hmiss : pos ∉ g.misses := fun hmem =>
      hs (h.2.1 ▸ Finset.mem_union_right g.hits hmem)
    unfold Grid.receiveShot
    rw [if_neg hcond]
    rcases hcell : g.cells pos with _ | i
    · refine ⟨?_, ?_, h.2.2⟩
      · rw [Finset.inter_insert_of_not_mem hhit]; exact h.1
      · rw [Finset.union_insert, h.2.1]
    · refine ⟨?_, ?_, fun p hp => ?_⟩
      · rw [Finset.insert_inter_of_not_mem hmiss]; exact h.1
      · rw [Finset.insert_union, h.2.1]
      · rcases Finset.mem_insert.mp hp with hp | hp
        · rw [hp, hcell]; rfl
        · exact h.2.2 p hp

theorem shotInv_op (g : Grid) (op : GridOp) (h : shotInv g) :
    shotInv (GridOp.apply g op) := by
  rcases op with ⟨name, size, start, orientation⟩ | pos | n | _
  · exact shotInv_place g _ start orientation h
  · exact shotInv_shoot g pos h
  · exact shotInv_empty n
  · simp [shotInv, GridOp.apply, Grid.clear]

theorem shotInv_foldl (ops : List GridOp) :
    ∀ g, shotInv g → shotInv (ops.foldl GridOp.apply g) := by
  induction ops with
  | nil => exact fun g h => h
  | cons op rest ih => exact fun g h => ih _ (shotInv_op g op h)

/-- C5: after any sequence of grid operations (`place_ship`,
`receive_shot`, `resize`, `clear`) starting from a fresh grid, the state
satisfies `hits ∩ misses = ∅`, `hits ∪ misses = shots`, and every position
in `hits` maps to a cell occupied by a ship. -/
theorem grid_bookkeeping_invariant (n : Nat) (ops : List GridOp) :
    shotInv (ops.foldl GridOp.apply (Grid.empty n)) :=
  shotInv_foldl ops _ (shotInv_empty n)

/-! ## Claim C4 -/

theorem calcShipPositions_within (gsize shipSize : Nat) (start : Pos)
    (orientation : String) (ps : List Pos)
    (h : calcShipPositions gsize shipSize start orientation = some ps) :
    ∀ p ∈ ps, withinGrid gsize p = true := by
  unfold calcShipPositions at h
  by_cases hstart : withinGrid gsize start = true
  · rw [if_pos hstart] at h
    dsimp only at h
    by_cases hall : (((List.range shipSize).map fun i =>
        if orientation = "horizontal" then (start.1, start.2 + (i : Int))
        else (start.1 + (i : Int), start.2)).all fun p => withinGrid gsize p) = true
    · rw [if_pos hall] at h
      cases h
      exact fun p hp => List.all_eq_true.mp hall p hp
    · rw [if_neg hall] at h
      cases h
  · rw [if_neg hstart] at h
    cases h

theorem isValidPlacement_no_occupied (g : Grid) (ps : List Pos)
    (h : isValidPlacement g ps = true) :
    ∀ p ∈ ps, ∀ d ∈ neighborOffsets,
      withinGrid g.size (p.1 + d.1, p.2 + d.2) = true →
      g.cells (p.1 + d.1, p.2 + d.2) = none := by
  intro p hp d hd hw
  have h1 := List.all_eq_true.mp (List.all_eq_true.mp h p hp) d hd
  rw [Bool.not_eq_true', Bool.and_eq_false_iff] at h1
  rcases h1 with h1 | h1
  · rw [hw] at h1; cases h1
  · exact Option.not_isSome_iff_eq_none.mp (by simp [h1])

theorem chebAdjacent_offset (p q : Pos) (h : chebAdjacent p q) :
    ∃ d ∈ neighborOffsets, q = (p.1 + d.1, p.2 + d.2) := by
  obtain ⟨h1, h2⟩ := h
  have e1 : q.1 - p.1 = -1 ∨ q.1 - p.1 = 0 ∨ q.1 - p.1 = 1 := by omega
  have e2 : q.2 - p.2 = -1 ∨ q.2 - p.2 = 0 ∨ q.2 - p.2 = 1 := by omega
  refine ⟨(q.1 - p.1, q.2 - p.2), ?_, ?_⟩
  · unfold neighborOffsets
    rcases e1 with e1 | e1 | e1 <;> rcases e2 with e2 | e2 | e2 <;>
      rw [e1, e2] <;> decide
  · rw [Prod.ext_iff]
    constructor <;> dsimp only <;> omega

theorem chebAdjacent_symm (p q : Pos) (h : chebAdjacent p q) : chebAdjacent q p := by
  obtain ⟨h1, h2⟩ := h
  exact ⟨by omega, by omega⟩

theorem placementInv_empty (n : Nat) : placementInv (Grid.empty n) := by
  refine ⟨⟨fun p i h => ?_, fun i hi => ?_⟩, fun i j hi _ _ => ?_⟩
  · cases h
  · exact absurd hi (by simp [Grid.empty])
  · exact absurd hi (by simp [Grid.empty])

theorem placementInv_extend (g : Grid) (ship : Ship) (orientation : String) (ps : List Pos)
    (hwithin : ∀ p ∈ ps, withinGrid g.size p = true)
    (hnoocc : ∀ p ∈ ps, ∀ d ∈ neighborOffsets,
       withinGrid g.size (p.1 + d.1, p.2 + d.2) = true →
       g.cells (p.1 + d.1, p.2 + d.2) = none)
    (h : placementInv g) :
    placementInv
      { g with ships := g.ships ++ [{ ship with position := ps, orientation := orientation }],
               cells := fun p => if p ∈ ps then some g.ships.length else g.cells p } := by
  obtain ⟨⟨hc1, hc2⟩, hsep⟩ := h
  have hfree : ∀ p ∈ ps, g.cells p = none := by
    intro p hp
    have h0 := hnoocc p hp (0, 0) (by decide)
    rw [show ((p.1 + (0 : Int), p.2 + (0 : Int)) : Pos) = p by simp] at h0
    exact h0 (hwithin p hp)
  have hadj : ∀ p ∈ ps, ∀ q : Pos, withinGrid g.size q = true → chebAdjacent p q →
      g.cells q = none := by
    intro p hp q hq hcheb
    obtain ⟨d, hd, hqd⟩ := chebAdjacent_offset p q hcheb
    rw [hqd] at hq ⊢
    exact hnoocc p hp d hd hq
  have hlen : (g.ships ++ [{ ship with position := ps, orientation := orientation }]).length =
      g.ships.length + 1 := by simp
  have hgetD_lt : ∀ i, i < g.ships.length →
      (g.ships ++ [{ ship with position := ps, orientation := orientation }]).getD i dfltShip =
        g.ships.getD i dfltShip :=
    fun i hi => List.getD_append _ _ _ _ hi
  have hgetD_last :
      (g.ships ++ [{ ship with position := ps, orientation := orientation }]).getD
          g.ships.length dfltShip =
        { ship with position := ps, orientation := orientation } := by
    rw [List.getD_append_right _ _ _ _ (le_refl _), Nat.sub_self]
    rfl
  refine ⟨⟨?_, ?_⟩, ?_⟩
  · intro p i hpi
    dsimp only at hpi
    by_cases hp : p ∈ ps
    · rw [if_pos hp] at hpi
      injection hpi with hpi
      subst hpi
      refine ⟨?_, ?_⟩
      · dsimp only
        rw [hlen]
        omega
      · dsimp only
        rw [hgetD_last]
        exact hp
    · rw [if_neg hp] at hpi
      obtain ⟨hi, hpos⟩ := hc1 p i hpi
      refine ⟨?_, ?_⟩
      · dsimp only
        rw [hlen]
        omega
      · dsimp only
        rw [hgetD_lt i hi]
        exact hpos
  · intro i hi p hp
    dsimp only at hi hp
    rw [hlen] at hi
    by_cases hiL : i = g.ships.length
    · subst hiL
      rw [hgetD_last] at hp
      refine ⟨?_, ?_⟩
      · dsimp only
        rw [if_pos hp]
      · exact hwithin p hp
    · have hi' : i < g.ships.length := by omega
      rw [hgetD_lt i hi'] at hp
      obtain ⟨hcell, hw⟩ := hc2 i hi' p hp
      refine ⟨?_, hw⟩
      dsimp only
      rw [if_neg ?_, hcell]
      intro hpps
      rw [hfree p hpps] at hcell
      cases hcell
  · intro i j hi hj hne p hp q hq hcheb
    dsimp only at hi hj hp hq
    rw [hlen] at hi hj
    by_cases hiL : i = g.ships.length <;> by_cases hjL : j = g.ships.length
    · exact hne (hiL.trans hjL.symm)
    · subst hiL
      rw [hgetD_last] at hp
      have hj' : j < g.ships.length := by omega
      rw [hgetD_lt j hj'] at hq
      obtain ⟨hcell, hw⟩ := hc2 j hj' q hq
      rw [hadj p hp q hw hcheb] at hcell
      cases hcell
    · subst hjL
      rw [hgetD_last] at hq
      have hi' : i < g.ships.length := by omega
      rw [hgetD_lt i hi'] at hp
      obtain ⟨hcell, hw⟩ := hc2 i hi' p hp
      rw [hadj q hq p hw (chebAdjacent_symm p q hcheb)] at hcell
      cases hcell
    · have hi' : i < g.ships.length := by omega
      have hj' : j < g.ships.length := by omega
      rw [hgetD_lt i hi'] at hp
      rw [hgetD_lt j hj'] at hq
      exact hsep i j hi' hj' hne p hp q hq hcheb

theorem placementInv_place (g : Grid) (ship : Ship) (start : Pos) (orientation : String)
    (h : placementInv g) : placementInv (g.placeShip ship start orientation).2 := by
  unfold Grid.placeShip
  split
  · exact h
  · rcases hcalc : calcShipPositions g.size ship.size start orientation with _ | ps
    · exact h
    · dsimp only
      by_cases hvalid : isValidPlacement g ps = true
      · rw [if_pos hvalid]
        exact placementInv_extend g ship orientation ps
          (calcShipPositions_within _ _ _ _ _ hcalc)
          (isValidPlacement_no_occupied g ps hvalid) h
      · rw [if_neg hvalid]
        exact h

theorem placementInv_applyPlacements (n : Nat) (cmds : List PlaceCmd) :
    placementInv (applyPlacements n cmds) := by
  suffices hstep : ∀ (cs : List PlaceCmd) (g : Grid), placementInv g →
      placementInv (cs.foldl
        (fun g c =>
          (g.placeShip ⟨c.name, c.size, [], [], "horizontal"⟩ c.start c.orientation).2) g) by
    exact hstep cmds (Grid.empty n) (placementInv_empty n)
  intro cs
  induction cs with
  | nil => exact fun g hg => hg
  | cons c rest ih => exact fun g hg => ih _ (placementInv_place g _ c.start c.orientation hg)

/-- C4: `Grid.place_ship` returns false and mutates nothing when the
computed run leaves the grid (`calcShipPositions` yields `none`) or when a
computed cell or one of its 8 neighbors already belongs to a placed ship;
and after any sequence of `place_ship` calls on an empty grid, no cell of
one placed ship equals or is 8-adjacent (diagonals included) to a cell of
another — which subsumes pairwise disjointness of the cell sets. -/
theorem placeShip_spec :
    (∀ (g : Grid) (ship : Ship) (start : Pos) (orientation : String),
       calcShipPositions g.size ship.size start orientation = none →
       g.placeShip ship start orientation = (false, g)) ∧
    (∀ (g : Grid) (ship : Ship) (start : Pos) (orientation : String) (ps : List Pos)
       (p d : Pos),
       calcShipPositions g.size ship.size start orientation = some ps →
       p ∈ ps → d ∈ neighborOffsets →
       withinGrid g.size (p.1 + d.1, p.2 + d.2) = true →
       (g.cells (p.1 + d.1, p.2 + d.2)).isSome = true →
       g.placeShip ship start orientation = (false, g)) ∧
    (∀ (n : Nat) (cmds : List PlaceCmd), shipsSeparated (applyPlacements n cmds)) := by
  refine ⟨?_, ?_, fun n cmds => (placementInv_applyPlacements n cmds).2⟩
  · intro g ship start orientation hcalc
    unfold Grid.placeShip
    split
    · rfl
    · rw [hcalc]
  · intro g ship start orientation ps p d hcalc hp hd hw hocc
    unfold Grid.placeShip
    split
    · rfl
    · rw [hcalc]
      dsimp only
      rw [if_neg (fun hvalid => by
        rw [isValidPlacement_no_occupied g ps hvalid p hp d hd hw] at hocc
        exact absurd hocc (by simp))]

/-- Witness for C4: a run leaving a 2×2 grid, a placement diagonally
touching an existing ship, and a concrete two-ship placement sequence. -/
theorem placeShip_spec_witness :
    (calcShipPositions (Grid.empty 2).size 5 (0, 0) "horizontal" = none ∧
       (Grid.empty 2).placeShip ⟨"Aircraft Carrier", 5, [], [], "horizontal"⟩ (0, 0)
         "horizontal" = (false, Grid.empty 2)) ∧
    (calcShipPositions lastShipGrid.size 2 (1, 0) "horizontal" = some [(1, 0), (1, 1)] ∧
       ((1 : Int), (0 : Int)) ∈ [((1 : Int), (0 : Int)), ((1 : Int), (1 : Int))] ∧
       ((-1 : Int), (0 : Int)) ∈ neighborOffsets ∧
       withinGrid lastShipGrid.size (1 + (-1), 0 + 0) = true ∧
       (lastShipGrid.cells (1 + (-1), 0 + 0)).isSome = true ∧
       lastShipGrid.placeShip ⟨"Patrol Boat", 2, [], [], "horizontal"⟩ (1, 0) "horizontal" =
         (false, lastShipGrid)) ∧
    shipsSeparated (applyPlacements 10
      [⟨"Destroyer", 3, (5, 5), "horizontal"⟩, ⟨"Patrol Boat", 2, (0, 0), "vertical"⟩]) := by
  refine ⟨⟨by decide, placeShip_spec.1 (Grid.empty 2) _ (0, 0) "horizontal" (by decide)⟩,
    ⟨by decide, by decide, by decide, by decide, by decide,
      placeShip_spec.2.1 lastShipGrid ⟨"Patrol Boat", 2, [], [], "horizontal"⟩ (1, 0)
        "horizontal" [(1, 0), (1, 1)] (1, 0) (-1, 0) (by decide) (by decide) (by decide)
        (by decide) (by decide)⟩,
    placeShip_spec.2.2 10
      [⟨"Destroyer", 3, (5, 5), "horizontal"⟩, ⟨"Patrol Boat", 2, (0, 0), "vertical"⟩]⟩

/-! ## Claim C6 -/

theorem prsStep_cases (orig : List (String × Nat)) (o : Nat → Bool × Nat)
    (st : PRSState) (h : st.attempts ≤ 49) :
    (∃ st', prsStep orig o st = Sum.inl st' ∧ st'.attempts ≤ 49) ∨
    prsStep orig o st = Sum.inr (true, st.player) := by
  have hbudget : ¬ (200 ≤ st.attempts) := by omega
  unfold prsStep
  by_cases hrem : st.player.remainingShips = []
  · right
    rw [if_pos (Or.inl hrem)]
    unfold prsExit
    rw [if_pos hrem]
  · rw [if_neg (by rintro (hc | hc); exacts [hrem hc, hbudget hc])]
    left
    dsimp only
    split
    · exact ⟨_, rfl, h⟩
    · split
      · refine ⟨_, rfl, ?_⟩
        show (0 : Nat) ≤ 49
        omega
      · next hmod =>
        refine ⟨_, rfl, ?_⟩
        show st.attempts + 1 ≤ 49
        omega

theorem prsRun_no_false (orig : List (String × Nat)) (o : Nat → Bool × Nat) :
    ∀ (fuel : Nat) (st : PRSState), st.attempts ≤ 49 →
      ∀ pl, prsRun orig o fuel st ≠ Sum.inr (false, pl) := by
  intro fuel
  induction fuel with
  | zero => intro st h pl; simp [prsRun]
  | succ n ih =>
    intro st h pl
    unfold prsRun
    rcases prsStep_cases orig o st h with ⟨st', hstep, hatt⟩ | hstep
    · rw [hstep]; exact ih st' hatt pl
    · rw [hstep]; simp

theorem getValidPositions_ship5_grid4 (p : Player) (hsize : p.grid.size = 4)
    (orientation : String) : p.getValidPositions 5 orientation = [] := by
  by_cases horient : orientation = "horizontal" <;>
    simp [Player.getValidPositions, hsize, horient]

theorem prsStep_stuck (o : Nat → Bool × Nat) (st : PRSState)
    (h : stuckInv st) (hatt : st.attempts ≤ 49) :
    ∃ st', prsStep [("Aircraft Carrier", 5)] o st = Sum.inl st' ∧
      stuckInv st' ∧ st'.attempts ≤ 49 := by
  obtain ⟨hrem, hsize⟩ := h
  have hcond : ¬ (st.player.remainingShips = [] ∨ 200 ≤ st.attempts) := by
    rw [hrem]; simp; omega
  unfold prsStep
  rw [if_neg hcond]
  dsimp only
  have hsz : (st.player.remainingShips.headD ("", 0)).2 = 5 := by rw [hrem]; rfl
  rw [hsz, getValidPositions_ship5_grid4 st.player hsize _, if_pos rfl]
  dsimp only
  split
  · refine ⟨_, rfl, ⟨rfl, ?_⟩, ?_⟩
    · show st.player.grid.clear.size = 4
      exact hsize
    · show (0 : Nat) ≤ 49
      omega
  · next hmod =>
    refine ⟨_, rfl, ⟨hrem, hsize⟩, ?_⟩
    show st.attempts + 1 ≤ 49
    omega

theorem prsRun_stuck (o : Nat → Bool × Nat) :
    ∀ (fuel : Nat) (st : PRSState), stuckInv st → st.attempts ≤ 49 →
      (prsRun [("Aircraft Carrier", 5)] o fuel st).isLeft = true := by
  intro fuel
  induction fuel with
  | zero => intro st _ _; rfl
  | succ n ih =>
    intro st h hatt
    obtain ⟨st', hstep, hinv, hatt'⟩ := prsStep_stuck o st h hatt
    unfold prsRun
    rw [hstep]
    exact ih st' hinv hatt'

/-- C6 (code bug): the retry budget of `place_ships_randomly` is dead and
the function need not terminate.  The failure counter is reset to 0 on
every 50th failed attempt, so from any loop state with at most 49 failures
(all reachable states — the loop starts at 0) the `attempts < 200` test
never fails and the restore-and-return-false branch is unreachable; on a
configuration whose ship cannot be placed (here a length-5 ship on a 4×4
grid, both quantified over by the claim) the loop runs forever. -/
theorem placeShipsRandomly_budget_never_exhausted :
    (∀ (orig : List (String × Nat)) (o : Nat → Bool × Nat) (fuel : Nat) (st : PRSState),
       st.attempts ≤ 49 → ∀ pl, prsRun orig o fuel st ≠ Sum.inr (false, pl)) ∧
    (∀ (o : Nat → Bool × Nat) (fuel : Nat),
       (placeShipsRandomly stuckPlayer o fuel).isLeft = true) := by
  refine ⟨prsRun_no_false, fun o fuel => ?_⟩
  exact prsRun_stuck o fuel ⟨stuckPlayer, 0, 0⟩ ⟨rfl, rfl⟩ (Nat.zero_le 49)

/-- Witness for C6: the loop never reports failure on a concrete run, and
the stuck configuration is still running after 300 iterations (beyond the
claimed budget of about 200 attempts). -/
theorem placeShipsRandomly_budget_never_exhausted_witness :
    ((⟨stuckPlayer, 0, 0⟩ : PRSState).attempts ≤ 49 ∧
       prsRun [] oracleZero 3 ⟨stuckPlayer, 0, 0⟩ ≠ Sum.inr (false, stuckPlayer)) ∧
    (placeShipsRandomly stuckPlayer oracleZero 300).isLeft = true :=
  ⟨⟨by decide,
     placeShipsRandomly_budget_never_exhausted.1 [] oracleZero 3 ⟨stuckPlayer, 0, 0⟩
       (by decide) stuckPlayer⟩,
   placeShipsRandomly_budget_never_exhausted.2 oracleZero 300⟩

/-! ## Claim C8 -/

theorem getShotPosition_frame (ai : AIPlayer) (k : Nat) :
    (ai.getShotPosition k).2 =
      { ai with potentialTargets := ((ai.getShotPosition k).2).potentialTargets } ∧
    (((ai.getShotPosition k).2).potentialTargets = ai.potentialTargets ∨
     ((ai.getShotPosition k).2).potentialTargets = ai.potentialTargets.tail) := by
  unfold AIPlayer.getShotPosition
  split
  · exact ⟨rfl, Or.inr rfl⟩
  · dsimp only
    split <;> exact ⟨rfl, Or.inl rfl⟩

/-- C8 counterexample: a playing state on the AI's turn whose queued target
was already fired upon.  The request is rejected as the claim describes,
but the AI's state *does* change: the stale entry has been popped from
`potential_targets` before the rejection. -/
theorem rejected_ai_request_mutates_targets :
    gcStaleTarget.gameState = "playing" ∧ gcStaleTarget.currentTurn = some "ai" ∧
    gcStaleTarget.aiPlayer.shots.mem ((gcStaleTarget.aiPlayer.getShotPosition 0).1) ∧
    (gcStaleTarget.processAITurn 0).1.valid = false ∧
    ¬ ((gcStaleTarget.processAITurn 0).2.aiPlayer.potentialTargets =
         gcStaleTarget.aiPlayer.potentialTargets) := by
  decide

/-- C8 as amended: a shot request made while the game is not `playing`, or
out of turn, is rejected with no state change at all; a player request on
an already-fired cell is rejected with no state change; an AI request whose
selected cell is already in the AI's shot record is rejected with the grids,
the statistics, the turn, and the game state unchanged — but the AI's
`potential_targets` queue may have lost its popped head (every other
targeting field is unchanged). -/
theorem shot_rejection_state_preservation :
    (∀ (gc : GameController) (pos : Pos),
       gc.gameState ≠ "playing" ∨ gc.currentTurn ≠ some "player" →
       gc.processPlayerShot pos =
         .ok ({ valid := false, message := "Not your turn" }, gc)) ∧
    (∀ (gc : GameController) (pos : Pos),
       gc.gameState = "playing" → gc.currentTurn = some "player" →
       (gc.aiPlayer.grid.getCellState pos = "hit" ∨
        gc.aiPlayer.grid.getCellState pos = "miss") →
       gc.processPlayerShot pos =
         .ok ({ valid := false, message := "Position already targeted" }, gc)) ∧
    (∀ (gc : GameController) (k : Nat),
       gc.gameState ≠ "playing" ∨ gc.currentTurn ≠ some "ai" →
       gc.processAITurn k = ({ valid := false, message := "Not AI turn" }, gc)) ∧
    (∀ (gc : GameController) (k : Nat),
       gc.gameState = "playing" → gc.currentTurn = some "ai" →
       gc.aiPlayer.shots.mem (gc.aiPlayer.getShotPosition k).1 →
       (gc.processAITurn k).1.valid = false ∧
       (gc.processAITurn k).2.player = gc.player ∧
       (gc.processAITurn k).2.stats = gc.stats ∧
       (gc.processAITurn k).2.currentTurn = gc.currentTurn ∧
       (gc.processAITurn k).2.gameState = gc.gameState ∧
       (gc.processAITurn k).2.aiPlayer =
         { gc.aiPlayer with
             potentialTargets := (gc.processAITurn k).2.aiPlayer.potentialTargets } ∧
       ((gc.processAITurn k).2.aiPlayer.potentialTargets = gc.aiPlayer.potentialTargets ∨
        (gc.processAITurn k).2.aiPlayer.potentialTargets =
          gc.aiPlayer.potentialTargets.tail)) := by
  refine ⟨?_, ?_, ?_, ?_⟩
  · intro gc pos h
    unfold GameController.processPlayerShot
    rw [if_pos h]
  · intro gc pos h1 h2 hcell
    unfold GameController.processPlayerShot
    rw [if_neg (by simp [h1, h2]), if_pos hcell]
  · intro gc k h
    unfold GameController.processAITurn
    rw [if_pos h]
  · intro gc k h1 h2 hmem
    have hcond : ¬ (gc.gameState ≠ "playing" ∨ gc.currentTurn ≠ some "ai") := by
      simp [h1, h2]
    obtain ⟨hframe, htail⟩ := getShotPosition_frame gc.aiPlayer k
    have hmem2 : ((gc.aiPlayer.getShotPosition k).2).shots.mem
        (gc.aiPlayer.getShotPosition k).1 := by
      rw [getShotPosition_shots]; exact hmem
    unfold GameController.processAITurn
    rw [if_neg hcond]
    dsimp only
    rw [if_pos hmem2]
    refine ⟨rfl, rfl, rfl, rfl, rfl, ?_, htail⟩
    exact hframe

/-- Witness for the amended C8: each rejection path applied at a concrete
state. -/
theorem shot_rejection_state_preservation_witness :
    ((gcSetup.gameState ≠ "playing" ∨ gcSetup.currentTurn ≠ some "player") ∧
       gcSetup.processPlayerShot (0, 0) =
         .ok ({ valid := false, message := "Not your turn" }, gcSetup)) ∧
    ((gcAlreadyTargeted.aiPlayer.grid.getCellState (0, 0) = "hit" ∨
        gcAlreadyTargeted.aiPlayer.grid.getCellState (0, 0) = "miss") ∧
       gcAlreadyTargeted.processPlayerShot (0, 0) =
         .ok ({ valid := false, message := "Position already targeted" }, gcAlreadyTargeted)) ∧
    ((gcSetup.gameState ≠ "playing" ∨ gcSetup.currentTurn ≠ some "ai") ∧
       gcSetup.processAITurn 0 = ({ valid := false, message := "Not AI turn" }, gcSetup)) ∧
    (gcStaleTarget.aiPlayer.shots.mem (gcStaleTarget.aiPlayer.getShotPosition 0).1 ∧
       (gcStaleTarget.processAITurn 0).1.valid = false ∧
       (gcStaleTarget.processAITurn 0).2.stats = gcStaleTarget.stats ∧
       ((gcStaleTarget.processAITurn 0).2.aiPlayer.potentialTargets =
          gcStaleTarget.aiPlayer.potentialTargets ∨
        (gcStaleTarget.processAITurn 0).2.aiPlayer.potentialTargets =
          gcStaleTarget.aiPlayer.potentialTargets.tail)) := by
  have h4 := shot_rejection_state_preservation.2.2.2 gcStaleTarget 0 rfl rfl (by decide)
  exact ⟨⟨Or.inl (by decide), shot_rejection_state_preservation.1 gcSetup (0, 0)
            (Or.inl (by decide))⟩,
    ⟨Or.inl (by decide), shot_rejection_state_preservation.2.1 gcAlreadyTargeted (0, 0)
        rfl rfl (Or.inl (by decide))⟩,
    ⟨Or.inl (by decide), shot_rejection_state_preservation.2.2.1 gcSetup 0
        (Or.inl (by decide))⟩,
    ⟨by decide, h4.1, h4.2.2.1, h4.2.2.2.2.2.2⟩⟩

/-- Witness for C1: a concrete playing state on the AI's turn. -/
theorem processAITurn_always_stalls_witness :
    (gcAITurn.gameState = "playing" ∧ gcAITurn.currentTurn = some "ai" ∧
       gcAITurn.aiPlayer.shots.isPylist = true) ∧
    ((gcAITurn.processAITurn 0).1.valid = false ∧
       (gcAITurn.processAITurn 0).2.currentTurn = some "ai" ∧
       (gcAITurn.processAITurn 0).2.gameState = "playing") :=
  ⟨⟨rfl, rfl, by decide⟩,
   processAITurn_always_stalls gcAITurn 0 rfl rfl (by decide)⟩
